import Mathlib

/-!
Shallow embedding of the task/reminder engine of `src/Main.py`, a Tkinter
to-do application.  Python `datetime` values are modelled as points on an
integer timeline (minutes since 0001-01-01 00:00, proleptic Gregorian, the
calendar `datetime` itself uses); `timedelta` subtraction is exact
arithmetic on that timeline.  Timestamp-valued record fields are ISO-format
strings in the source; they are modelled by `IsoStr`, whose `ok` constructor
carries the timeline point an isoformat string denotes and whose `bad`
constructor stands for any string on which `datetime.fromisoformat` raises
`ValueError`.  The persisted `tasks.json` file is modelled structurally:
either a JSON array of records (`FileData.records`) or content that
`json.load` rejects (`FileData.corrupt`).  CPython `list.sort` is a stable
ascending sort by the extracted keys, and a stable sort of a list under a
total key order has a unique result, so `List.insertionSort` models it
exactly.
-/

namespace ToDoApp

/-- Gregorian leap-year rule, as used by Python `datetime`. -/
def isLeap (y : Nat) : Bool :=
  (y % 4 == 0 && y % 100 != 0) || (y % 400 == 0)

/-- Number of days in month `m` (1 to 12) of year `y`. -/
def daysInMonth (y m : Nat) : Nat :=
  if m = 2 then (if isLeap y then 29 else 28)
  else if m = 4 ∨ m = 6 ∨ m = 9 ∨ m = 11 then 30
  else 31

/-- Days of year `y` that lie strictly before month `m` (months numbered
from 1). -/
def daysBeforeMonth (y : Nat) : Nat → Nat
  | 0 => 0
  | m + 1 => if m = 0 then 0 else daysBeforeMonth y m + daysInMonth y m

/-- Days strictly before January 1 of year `y` (years numbered from 1). -/
def daysBeforeYear : Nat → Nat
  | 0 => 0
  | y + 1 => if y = 0 then 0 else daysBeforeYear y + (if isLeap y then 366 else 365)

/-- The point on the `datetime` timeline, in minutes, named by the calendar
fields `y-mo-d h:mi`. -/
def toMin (y mo d h mi : Nat) : Int :=
  ((daysBeforeYear y + daysBeforeMonth y mo + (d - 1)) * 1440 + h * 60 + mi : Nat)

/-- A timestamp-valued field as the Python code stores it: an ISO-format
string.  `ok t` models output of `datetime.isoformat` denoting timeline
point `t`; `bad s` models any string on which `datetime.fromisoformat`
raises `ValueError`. -/
inductive IsoStr
  | ok (t : Int)
  | bad (s : String)
deriving DecidableEq

/-- Model of `datetime.fromisoformat`: the timeline point, or failure. -/
def fromisoformat : IsoStr → Option Int
  | .ok t => some t
  | .bad _ => none

/-- One task record: the dict built in `add_task` (`src/Main.py:165-172`). -/
structure Task where
  id : String
  task : String
  deadline : IsoStr
  reminder_time : IsoStr
  completed : Bool
  reminded : Bool
deriving DecidableEq

/-- One record of the persisted JSON array.  `id` and `reminded` may be
absent in files written by older versions; `load_tasks` backfills them
(`src/Main.py:355-362`). -/
structure StoredRec where
  id : Option String
  task : String
  deadline : IsoStr
  reminder_time : IsoStr
  completed : Bool
  reminded : Option Bool
deriving DecidableEq

/-- What the persisted file can hold: a JSON array of task records, or
content on which `json.load` raises. -/
inductive FileData
  | records (rs : List StoredRec)
  | corrupt (raw : String)
deriving DecidableEq

/-- Application state: the in-memory list `self.tasks` together with the
persisted file `tasks.json` (`none` when the file does not exist). -/
structure AppState where
  tasks : List Task
  file : Option FileData
deriving DecidableEq

/-- Serialization of one task as `json.dump` writes it: every field present. -/
def taskToRec (t : Task) : StoredRec :=
  { id := some t.id, task := t.task, deadline := t.deadline,
    reminder_time := t.reminder_time, completed := t.completed,
    reminded := some t.reminded }

/-- Model of `save_tasks` (`src/Main.py:345-348`): whole-file rewrite with
the serialized task list. -/
def save_tasks (ts : List Task) : Option FileData :=
  some (.records (ts.map taskToRec))

/-- Backfill of one loaded record (`src/Main.py:357-362`): a missing
`reminded` becomes `false`, a missing `id` becomes
`legacy_<index>_<now-ms>`. -/
def repairRec (nowMs i : Nat) (r : StoredRec) : Task :=
  { id := r.id.getD ("legacy_" ++ toString i ++ "_" ++ toString nowMs),
    task := r.task, deadline := r.deadline, reminder_time := r.reminder_time,
    completed := r.completed, reminded := r.reminded.getD false }

/-- The `enumerate` loop of `load_tasks`, carrying the running index. -/
def repairAll (nowMs : Nat) : Nat → List StoredRec → List Task
  | _, [] => []
  | i, r :: rs => repairRec nowMs i r :: repairAll nowMs (i + 1) rs

/-- Model of `load_tasks` (`src/Main.py:350-364`).  A missing file yields
the empty list; a file that `json.load` cannot parse raises
`json.JSONDecodeError`, modelled as `Except.error`.  The source has no
`try`/`except` around this: the error propagates out of
`ToDoApp.__init__` (`src/Main.py:40`). -/
def load_tasks (nowMs : Nat) : Option FileData → Except String (List Task)
  | none => .ok []
  | some (.corrupt _) => .error "json.JSONDecodeError"
  | some (.records rs) => .ok (repairAll nowMs 0 rs)

/-- Model of Python `str.strip()`: drop whitespace at both ends. -/
def strip (s : String) : String :=
  ⟨((s.data.dropWhile Char.isWhitespace).reverse.dropWhile Char.isWhitespace).reverse⟩

/-- The deadline entry as typed by the user, after stripping: either it has
the shape `DD/MM HH:MM`, carrying the four numeric fields, or it does not
match that pattern at all.  `strptime` still rejects matching text whose
fields name no real calendar date/time. -/
inductive DeadlineText
  | fields (d m h mi : Nat)
  | noMatch (raw : String)
deriving DecidableEq

/-- Model of `src/Main.py:150-153`: `datetime.strptime(f"{year} {text}",
"%Y %d/%m %H:%M")` — match the pattern, validate the fields against the
calendar, and return the denoted timeline point; `ValueError` is `none`. -/
def strptimeDDMM (y : Nat) : DeadlineText → Option Int
  | .noMatch _ => none
  | .fields d m h mi =>
    if 1 ≤ m ∧ m ≤ 12 ∧ 1 ≤ d ∧ d ≤ daysInMonth y m ∧ h ≤ 23 ∧ mi ≤ 59 then
      some (toMin y m d h mi)
    else none

/-- Outcome that `add_task` reports through a message box. -/
inductive AddOutcome
  | added (t : Task)
  | inputError (msg : String)
deriving DecidableEq

/-- True exactly when the outcome is a validation warning. -/
def isInputError : AddOutcome → Bool
  | .inputError _ => true
  | .added _ => false

/-- Model of `add_task` (`src/Main.py:140-180`).  `y` is the current year,
`nowMs` the value of `int(time.time() * 1000)` at the add, and
`remH`/`remM` the lead-time dropdown values. -/
def add_task (st : AppState) (y nowMs : Nat) (taskEntry : String)
    (deadlineEntry : DeadlineText) (remH remM : Nat) : AppState × AddOutcome :=
  let text := strip taskEntry
  if text = "" then (st, .inputError "Task description cannot be empty.")
  else
    match strptimeDDMM y deadlineEntry with
    | none => (st, .inputError "Invalid deadline format. Please use DD/MM HH:MM.")
    | some dl =>
      let reminder : Int := dl - (remH * 60 + remM : Nat)
      let newTask : Task :=
        { id := toString nowMs, task := text, deadline := .ok dl,
          reminder_time := .ok reminder, completed := false, reminded := false }
      let ts := st.tasks ++ [newTask]
      ({ tasks := ts, file := save_tasks ts }, .added newTask)

/-- The body of the `check_reminders` loop for one task
(`src/Main.py:370-382`): the updated task, and whether a notification was
delivered for it.  Note that `trigger_reminder` (`src/Main.py:394`) parses
`task["deadline"]` before starting any channel, still inside the `try`; if
that raises `ValueError` the `except` clause skips the task, so nothing
fires and `reminded` is not set. -/
def checkTask (now : Int) (t : Task) : Task × Bool :=
  if !t.completed && !t.reminded then
    match fromisoformat t.reminder_time with
    | some r =>
      if now ≥ r then
        match fromisoformat t.deadline with
        | some _ => ({ t with reminded := true }, true)
        | none => (t, false)
      else (t, false)
    | none => (t, false)
  else (t, false)

/-- Model of one `check_reminders` tick (`src/Main.py:366-388`): scan every
task in order with `checkTask`, then persist the whole store once.  The
second component lists the tasks (as they stood when scanned) for which
`trigger_reminder` delivered a notification. -/
def check_reminders (now : Int) (st : AppState) : AppState × List Task :=
  let ts := st.tasks.map (fun t => (checkTask now t).1)
  ({ tasks := ts, file := save_tasks ts },
   st.tasks.filter (fun t => (checkTask now t).2))

/-- The sort key of `sort_tasks`: the parsed deadline, defaulted (the
default is never reached: `sort_tasks` fails first if some deadline does
not parse). -/
def deadlineKey (t : Task) : Int := (fromisoformat t.deadline).getD 0

/-- Ascending-deadline order on tasks. -/
def deadlineLE (a b : Task) : Prop := deadlineKey a ≤ deadlineKey b

instance : DecidableRel deadlineLE :=
  fun a b => inferInstanceAs (Decidable (deadlineKey a ≤ deadlineKey b))

/-- Model of `sort_tasks` (`src/Main.py:312-316`): stable ascending sort of
the in-memory list by parsed deadline.  CPython extracts all keys before
reordering, so if some deadline does not parse the `ValueError` leaves the
list unchanged.  `sort_tasks` never calls `save_tasks`: the file component
is left as it was. -/
def sort_tasks (st : AppState) : Except String AppState :=
  if st.tasks.all (fun t => (fromisoformat t.deadline).isSome) then
    .ok { st with tasks := st.tasks.insertionSort deadlineLE }
  else .error "ValueError"

/-- Model of `reset_reminder` (`src/Main.py:282-310`) applied to the task at
selected index `i` (out-of-range selection only shows an error box and
changes nothing). -/
def reset_reminder (st : AppState) (i : Nat) : AppState :=
  match st.tasks[i]? with
  | none => st
  | some t =>
    if t.reminded then
      let ts := st.tasks.set i { t with reminded := false }
      { tasks := ts, file := save_tasks ts }
    else st

/-- Model of `edit_task.save_edit` (`src/Main.py:214-224`) for the task at
selected index `i`; `entry` is the content of the edit box.  An empty
stripped entry only warns; otherwise the description is replaced and the
store saved. -/
def save_edit (st : AppState) (i : Nat) (entry : String) : AppState :=
  match st.tasks[i]? with
  | none => st
  | some t =>
    let s := strip entry
    if s = "" then st
    else
      let ts := st.tasks.set i { t with task := s }
      { tasks := ts, file := save_tasks ts }

/-- A store with no tasks and no file yet, the state after a first launch. -/
def emptyStore : AppState := { tasks := [], file := none }

/-- Task with the later deadline `02/01 10:00` (timeline point of year 1). -/
def taskLater : Task :=
  { id := "1", task := "b", deadline := .ok (toMin 1 1 2 10 0),
    reminder_time := .ok (toMin 1 1 2 9 0), completed := false, reminded := false }

/-- Task with the sooner deadline `01/01 09:00` (timeline point of year 1). -/
def taskSooner : Task :=
  { id := "2", task := "a", deadline := .ok (toMin 1 1 1 9 0),
    reminder_time := .ok (toMin 1 1 1 8 0), completed := false, reminded := false }

/-- A store holding `[taskLater, taskSooner]` with the file in sync. -/
def unsortedStore : AppState :=
  { tasks := [taskLater, taskSooner], file := save_tasks [taskLater, taskSooner] }

/-- The state `sort_tasks` produces from `unsortedStore`: list reordered,
file still holding the old order. -/
def sortedStoreAfter : AppState :=
  { tasks := [taskSooner, taskLater], file := save_tasks [taskLater, taskSooner] }

/-- State after one add at wall-clock millisecond 1767225600000. -/
def afterFirstAdd : AppState :=
  (add_task emptyStore 2026 1767225600000 "first" (.fields 1 1 0 0) 0 0).1

/-- State after a second add in the very same millisecond. -/
def afterSecondAdd : AppState :=
  (add_task afterFirstAdd 2026 1767225600000 "second" (.fields 2 1 0 0) 0 0).1

/-- A persisted file whose bytes are not valid JSON. -/
def corruptFile : Option FileData := some (.corrupt "not json [")

/-- A task whose reminder_time string parses and is long past, but whose
deadline string does not parse (reachable by loading a hand-edited or
partially damaged `tasks.json`). -/
def badDeadlineTask : Task :=
  { id := "9", task := "x", deadline := .bad "junk",
    reminder_time := .ok 0, completed := false, reminded := false }

/-- A store holding only `badDeadlineTask`. -/
def badStore : AppState := { tasks := [badDeadlineTask], file := none }

/-- A well-formed task that is due at time 50. -/
def dueTask : Task :=
  { id := "3", task := "due", deadline := .ok 90,
    reminder_time := .ok 30, completed := false, reminded := false }

/-- A store holding only `dueTask`, file in sync. -/
def dueStore : AppState := { tasks := [dueTask], file := save_tasks [dueTask] }

/-- A task that has already been reminded. -/
def remindedTask : Task :=
  { id := "7", task := "call", deadline := .ok 100,
    reminder_time := .ok 40, completed := true, reminded := true }

/-- A store holding only `remindedTask`, file in sync. -/
def remindedStore : AppState :=
  { tasks := [remindedTask], file := save_tasks [remindedTask] }

/-- A task to be edited. -/
def editTask : Task :=
  { id := "4", task := "old words", deadline := .ok 200,
    reminder_time := .ok 150, completed := false, reminded := true }

/-- A neighbour task that the edit must not touch. -/
def editOther : Task :=
  { id := "5", task := "other", deadline := .ok 300,
    reminder_time := .ok 250, completed := true, reminded := false }

/-- A two-task store for the edit frame claim. -/
def editStore : AppState :=
  { tasks := [editTask, editOther], file := save_tasks [editTask, editOther] }

-- Functional description of the scan body: the task fires exactly when it
-- is not completed, not yet reminded, its reminder_time string parses to a
-- point that has arrived, and its deadline string parses as well (else
-- `trigger_reminder` raises before doing anything observable and the
-- `except` clause skips the task).
open Classical in
theorem checkTask_eq (now : Int) (t : Task) :
    checkTask now t =
      if t.completed = false ∧ t.reminded = false ∧
          (∃ r, fromisoformat t.reminder_time = some r ∧ r ≤ now) ∧
          (∃ d, fromisoformat t.deadline = some d)
        then ({ t with reminded := true }, true)
        else (t, false) := by
  unfold checkTask
  rcases hc : t.completed
  case false =>
    rcases hm : t.reminded
    case false =>
      rcases hr : fromisoformat t.reminder_time with _ | r
      case none => simp [hc, hm, hr]
      case some =>
        by_cases hn : r ≤ now
        case pos =>
          rcases hd : fromisoformat t.deadline with _ | d
          case none => simp [hc, hm, hr, hn, hd]
          case some => simp [hc, hm, hr, hn, hd]
        case neg => simp [hc, hm, hr, hn]
    case true => simp [hc, hm]
  case true => simp [hc]

/-- Exact firing condition of the scan body. -/
theorem checkTask_fires_iff (now : Int) (t : Task) :
    (checkTask now t).2 = true ↔
      t.completed = false ∧ t.reminded = false ∧
        (∃ r, fromisoformat t.reminder_time = some r ∧ r ≤ now) ∧
        (∃ d, fromisoformat t.deadline = some d) := by
  rw [checkTask_eq]
  split
  next h => simpa using h
  next h => simpa using h

/-- When the scan body does not fire, the task is returned unchanged. -/
theorem checkTask_not_fired (now : Int) (t : Task)
    (h : (checkTask now t).2 = false) : (checkTask now t).1 = t := by
  rw [checkTask_eq] at h ⊢
  split at h
  next hC => simp at h
  next hC => rw [if_neg hC]

/-- When the scan body fires, the result only flips the `reminded` flag. -/
theorem checkTask_fired (now : Int) (t : Task)
    (h : (checkTask now t).2 = true) :
    (checkTask now t).1 = { t with reminded := true } := by
  rw [checkTask_eq] at h ⊢
  split at h
  next hC => rw [if_pos hC]
  next hC => simp at h

/-- Scanning a task twice at the same instant never fires the second time. -/
theorem checkTask_twice (now : Int) (t : Task) :
    (checkTask now (checkTask now t).1).2 = false := by
  by_cases h : (checkTask now t).2 = true
  · rw [checkTask_fired now t h, checkTask_eq,
      if_neg (by rintro ⟨-, hm, -⟩; simp at hm)]
  · rw [checkTask_not_fired now t (by simpa using h)]
    simpa using h

/-- C4 (amended): on a tick at time `now`, the task at position `i` of the
store has the Notification Dispatcher deliver for it and its `reminded`
flag set to true iff, at the start of the tick, it is not completed, not
yet reminded, its reminder_time parses to a point `≤ now`, and its deadline
parses as well.  The first conjunct places the updated task at the same
position of the resulting store. -/
theorem check_reminders_fires_iff (now : Int) (st : AppState) (i : Nat)
    (t : Task) (h : st.tasks[i]? = some t) :
    (check_reminders now st).1.tasks[i]? = some (checkTask now t).1 ∧
    (((checkTask now t).1.reminded = true ∧ t ∈ (check_reminders now st).2) ↔
      (t.completed = false ∧ t.reminded = false ∧
        (∃ r, fromisoformat t.reminder_time = some r ∧ r ≤ now) ∧
        (∃ d, fromisoformat t.deadline = some d))) := by
  have hmem : t ∈ st.tasks := List.getElem?_mem h
  constructor
  · unfold check_reminders
    simp [List.getElem?_map, h]
  · constructor
    · rintro ⟨-, hfil⟩
      have hf : (checkTask now t).2 = true := by
        have hh : t ∈ st.tasks ∧ (checkTask now t).2 = true := by
          simpa [check_reminders] using hfil
        exact hh.2
      exact (checkTask_fires_iff now t).mp hf
    · intro hc
      have hf : (checkTask now t).2 = true := (checkTask_fires_iff now t).mpr hc
      refine ⟨by rw [checkTask_fired now t hf], ?_⟩
      unfold check_reminders
      simpa [List.mem_filter, hmem] using hf

/-- Witness for C4: at time 50, the due task of `dueStore` is carried to
position 0 of the resulting store in its scanned-and-updated form. -/
theorem check_reminders_fires_iff_witness :
    (check_reminders 50 dueStore).1.tasks[0]? = some (checkTask 50 dueTask).1 :=
  (check_reminders_fires_iff 50 dueStore 0 dueTask rfl).1

/-- C4 counterexample: `badDeadlineTask` is not completed, not reminded, and
its reminder_time (point 0) has long arrived at time 5 — the right-hand
side of the claimed iff — yet the tick delivers no notification for it and
leaves its `reminded` flag false, because `trigger_reminder` raises
`ValueError` on the unparsable deadline string and the `except` clause
skips the task. -/
theorem check_reminders_bad_deadline_cex :
    badDeadlineTask.completed = false ∧ badDeadlineTask.reminded = false ∧
    fromisoformat badDeadlineTask.reminder_time = some 0 ∧ (0 : Int) ≤ 5 ∧
    (check_reminders 5 badStore).2 = [] ∧
    (check_reminders 5 badStore).1.tasks = [badDeadlineTask] := by
  decide

/-- C6: running the due-check tick twice in immediate succession (same
current time) delivers no notification at all on the second run — in
particular none for any task notified on the first run. -/
theorem check_reminders_idempotent (now : Int) (st : AppState) :
    (check_reminders now (check_reminders now st).1).2 = [] := by
  unfold check_reminders
  simp only [List.filter_eq_nil_iff, List.mem_map]
  rintro a ⟨b, -, rfl⟩
  simpa using checkTask_twice now b

/-- Repairing records that were written by `save_tasks` changes nothing:
both `id` and `reminded` are present, so every `getD` takes the stored
value, whatever starting index the `enumerate` loop carries. -/
theorem repairAll_map_taskToRec (nowMs : Nat) :
    ∀ (ts : List Task) (i : Nat), repairAll nowMs i (ts.map taskToRec) = ts := by
  intro ts
  induction ts with
  | nil => intro i; rfl
  | cons t ts ih =>
    intro i
    simp only [List.map_cons, repairAll, repairRec, taskToRec, Option.getD_some, ih]

/-- C7: `save_tasks` followed by `load_tasks` reproduces the task list
exactly — same ids, same field values, same order. -/
theorem save_load_roundtrip (nowMs : Nat) (ts : List Task) :
    load_tasks nowMs (save_tasks ts) = .ok ts := by
  simp only [save_tasks, load_tasks, repairAll_map_taskToRec]

/-- C3 (amended): a persisted file whose content `json.load` cannot parse
makes `load_tasks` raise the parse error.  There is no `CorruptStoreError`
and no recovery: nothing in the source catches the exception, so the
process dies during `__init__` instead of starting with an empty store. -/
theorem load_tasks_corrupt_raises (nowMs : Nat) (raw : String) :
    load_tasks nowMs (some (.corrupt raw)) = .error "json.JSONDecodeError" :=
  rfl

/-- C3 counterexample: on a concrete unparsable file, `load_tasks` yields
the propagating parse error, not the empty store the claim promises. -/
theorem load_tasks_corrupt_cex :
    load_tasks 0 corruptFile = .error "json.JSONDecodeError" ∧
    load_tasks 0 corruptFile ≠ .ok [] := by
  refine ⟨rfl, ?_⟩
  intro h
  exact Except.noConfusion h

/-- C5: for every input that passes validation — a deadline naming a valid
calendar date/time of the current year and any non-negative lead time of
`remH` hours and `remM` minutes — `add_task` appends a task whose
reminder_time is exactly `deadline − lead_time` on the timeline. -/
theorem add_task_reminder_exact (st : AppState) (y nowMs : Nat)
    (taskEntry : String) (dtext : DeadlineText) (remH remM : Nat) (dl : Int)
    (htext : strip taskEntry ≠ "") (hdl : strptimeDDMM y dtext = some dl) :
    (add_task st y nowMs taskEntry dtext remH remM).1.tasks =
      st.tasks ++
        [{ id := toString nowMs, task := strip taskEntry, deadline := .ok dl,
           reminder_time := .ok (dl - (remH * 60 + remM : Nat)),
           completed := false, reminded := false }] := by
  unfold add_task
  simp [htext, hdl]

/-- Witness for C5, scenario A: deadline `25/12 09:00` of year 2026 with
lead time 1h0m appends a task whose reminder_time is the timeline point of
`25/12 08:00` of the same year. -/
theorem add_task_reminder_exact_witness :
    ((add_task emptyStore 2026 0 "buy gift" (.fields 25 12 9 0) 1 0).1.tasks =
      emptyStore.tasks ++
        [{ id := toString 0, task := strip "buy gift",
           deadline := .ok (toMin 2026 12 25 9 0),
           reminder_time := .ok (toMin 2026 12 25 9 0 - (1 * 60 + 0 : Nat)),
           completed := false, reminded := false }]) ∧
    toMin 2026 12 25 9 0 - ((1 * 60 + 0 : Nat) : Int) = toMin 2026 12 25 8 0 := by
  refine ⟨add_task_reminder_exact emptyStore 2026 0 "buy gift"
    (.fields 25 12 9 0) 1 0 (toMin 2026 12 25 9 0) (by decide) rfl, ?_⟩
  unfold toMin
  push_cast
  ring

/-- C8: an input whose description is empty after stripping, or whose
deadline text does not parse under `DD/MM HH:MM`, creates no task: the
whole store — in-memory list and persisted file — is returned unchanged,
and the caller is handed a validation warning. -/
theorem add_task_rejects_invalid (st : AppState) (y nowMs : Nat)
    (taskEntry : String) (dtext : DeadlineText) (remH remM : Nat)
    (h : strip taskEntry = "" ∨ strptimeDDMM y dtext = none) :
    (add_task st y nowMs taskEntry dtext remH remM).1 = st ∧
    isInputError (add_task st y nowMs taskEntry dtext remH remM).2 = true := by
  unfold add_task
  rcases h with h | h
  · simp [h, isInputError]
  · by_cases he : strip taskEntry = "" <;> simp [he, h, isInputError]

/-- Witness for C8: a deadline entry that does not match the pattern leaves
the empty store untouched and reports a validation warning. -/
theorem add_task_rejects_invalid_witness :
    (add_task emptyStore 2026 0 "x" (.noMatch "2026-12-25") 1 0).1 = emptyStore ∧
    isInputError (add_task emptyStore 2026 0 "x" (.noMatch "2026-12-25") 1 0).2 = true :=
  add_task_rejects_invalid emptyStore 2026 0 "x" (.noMatch "2026-12-25") 1 0 (Or.inr rfl)

/-- C1 counterexample: on a store holding deadlines `[02/01 10:00,
01/01 09:00]`, `sort_tasks` reorders the in-memory list ascending, but the
persisted file still holds the serialization of the old order — it is not
the serialization of the new order, because `sort_tasks` never calls
`save_tasks`. -/
theorem sort_tasks_does_not_persist :
    sort_tasks unsortedStore = .ok sortedStoreAfter ∧
    sortedStoreAfter.tasks = [taskSooner, taskLater] ∧
    sortedStoreAfter.file ≠ save_tasks sortedStoreAfter.tasks := by
  refine ⟨rfl, rfl, by decide⟩

/-- C1 (amended): whenever `sort_tasks` succeeds (every stored deadline
parses), the in-memory list is reordered ascending by deadline — a
permutation of the old list, sorted under `deadlineLE` — but the persisted
file is left exactly as it was; the new order reaches disk only when some
later operation saves. -/
theorem sort_tasks_amended (st st' : AppState) (h : sort_tasks st = .ok st') :
    List.Sorted deadlineLE st'.tasks ∧ st'.tasks.Perm st.tasks ∧
    st'.file = st.file := by
  unfold sort_tasks at h
  split at h
  · injection h with h
    subst h
    refine ⟨?_, List.perm_insertionSort _ _, rfl⟩
    haveI h1 : IsTotal Task deadlineLE :=
      ⟨fun a b => le_total (deadlineKey a) (deadlineKey b)⟩
    haveI h2 : IsTrans Task deadlineLE :=
      ⟨fun a b c hab hbc => le_trans hab hbc⟩
    exact List.sorted_insertionSort deadlineLE st.tasks
  · exact absurd h (by simp)

/-- Witness for C1 (amended): sorting `unsortedStore` yields
`sortedStoreAfter`, whose list is sorted and whose file is untouched. -/
theorem sort_tasks_amended_witness :
    List.Sorted deadlineLE sortedStoreAfter.tasks ∧
    sortedStoreAfter.tasks.Perm unsortedStore.tasks ∧
    sortedStoreAfter.file = unsortedStore.file :=
  sort_tasks_amended unsortedStore sortedStoreAfter rfl

/-- C2: two adds performed within the same wall-clock millisecond — the id
is `str(int(time.time() * 1000))` — produce two tasks carrying the very
same id, so the freshly assigned id is not distinct from the id already in
the store. -/
theorem add_task_duplicate_ids :
    afterSecondAdd.tasks.map Task.id = ["1767225600000", "1767225600000"] ∧
    ¬ List.Nodup (afterSecondAdd.tasks.map Task.id) := by
  decide

/-- C9: applied to a selected task with `reminded = true`, `reset_reminder`
clears the flag (and only that flag) and persists the store; applied to a
task with `reminded = false` it changes nothing — no list mutation, no
save. -/
theorem reset_reminder_spec (st : AppState) (i : Nat) (t : Task)
    (h : st.tasks[i]? = some t) :
    (t.reminded = true →
      reset_reminder st i =
        { tasks := st.tasks.set i { t with reminded := false },
          file := save_tasks (st.tasks.set i { t with reminded := false }) }) ∧
    (t.reminded = false → reset_reminder st i = st) := by
  unfold reset_reminder
  rw [h]
  constructor
  · intro hr; simp [hr]
  · intro hr; simp [hr]

/-- Witness for C9: resetting the reminded task of `remindedStore` clears
its flag and saves the result. -/
theorem reset_reminder_spec_witness :
    reset_reminder remindedStore 0 =
      { tasks := remindedStore.tasks.set 0 { remindedTask with reminded := false },
        file := save_tasks (remindedStore.tasks.set 0 { remindedTask with reminded := false }) } :=
  (reset_reminder_spec remindedStore 0 remindedTask rfl).1 rfl

/-- C10: saving an edit with a non-empty stripped description changes only
the description of the selected task — its id, deadline, reminder_time,
completed and reminded fields keep their values — and every other position
of the store is unchanged. -/
theorem save_edit_frame (st : AppState) (i : Nat) (t : Task) (entry : String)
    (h : st.tasks[i]? = some t) (hne : strip entry ≠ "") :
    ((save_edit st i entry).tasks[i]? =
      some { id := t.id, task := strip entry, deadline := t.deadline,
             reminder_time := t.reminder_time, completed := t.completed,
             reminded := t.reminded }) ∧
    (∀ j, j ≠ i → (save_edit st i entry).tasks[j]? = st.tasks[j]?) := by
  have hlen : i < st.tasks.length := by
    rcases List.getElem?_eq_some.mp h with ⟨hl, -⟩
    exact hl
  unfold save_edit
  rw [h]
  constructor
  · simp [hne, List.getElem?_set_self hlen]
  · intro j hj
    simp [hne, List.getElem?_set_ne (Ne.symm hj)]

/-- Witness for C10: editing task 0 of the two-task `editStore` stores the
stripped new text there and leaves position 1 untouched. -/
theorem save_edit_frame_witness :
    ((save_edit editStore 0 "  new text  ").tasks[0]? =
      some { id := editTask.id, task := strip "  new text  ",
             deadline := editTask.deadline, reminder_time := editTask.reminder_time,
             completed := editTask.completed, reminded := editTask.reminded }) ∧
    (save_edit editStore 0 "  new text  ").tasks[1]? = editStore.tasks[1]? := by
  have H := save_edit_frame editStore 0 editTask "  new text  " rfl (by decide)
  exact ⟨H.1, H.2 1 (by decide)⟩

end ToDoApp
